import Mathlib

/-!
Verification development for the admission/selection workflow manager
(questionnaire → home-video → interview pipeline).

The definitions below are a shallow embedding of the source:
* enums from `src/db/models.py`;
* the questionnaire submit transaction from
  `src/app/api/routers/questionnaire.py` (`submit_questionnaire`,
  `get_questionnaire_status`);
* the draft buffer from `src/app/services/draft_service.py` over a
  Redis-style expiring key-value store;
* slot capacity / availability / deletion handlers from
  `src/app/api/routers/interview_days.py` and
  `src/app/api/routers/interview_slots.py`;
* the stage transition handler from `src/bot/handlers/admin.py`;
* the duplicate-video check from `src/bot/handlers/video_stage.py`,
  including Python's by-name attribute resolution on `UserProgress`.

Databases are modelled as lists of rows; a handler is a function from the
relevant rows to `Except e` of the new rows, where `Except.error` stands
for an `HTTPException` raised before `commit` (the session is rolled back,
so the durable state is unchanged).  Timestamps are `Nat` seconds.
-/

namespace Otbor

/-- Stage types, from `StageType` in `src/db/models.py`. -/
inductive StageType
  | questionnaire
  | home_video
  | interview
  deriving DecidableEq, Repr

/-- Stage statuses, from `StageStatus` in `src/db/models.py`.
`open` is a Lean keyword, hence the trailing underscore. -/
inductive StageStatus
  | not_started
  | open_
  | closed
  | completed
  deriving DecidableEq, Repr

/-- Per-applicant per-stage statuses, from `SubmissionStatus` in
`src/db/models.py`. -/
inductive SubmissionStatus
  | not_started
  | in_progress
  | submitted
  | approved
  | rejected
  deriving DecidableEq, Repr

/-- The string `.value` of a `SubmissionStatus`, as used by
`get_questionnaire_status`. -/
def SubmissionStatus.value : SubmissionStatus → String
  | .not_started => "not_started"
  | .in_progress => "in_progress"
  | .submitted => "submitted"
  | .approved => "approved"
  | .rejected => "rejected"

/-- Review-queue statuses, from `ApprovalStatus` in `src/db/models.py`. -/
inductive ApprovalStatus
  | pending
  | approved
  | rejected
  deriving DecidableEq, Repr

/-- Interview booking statuses, from `InterviewStatus` in
`src/db/models.py`. -/
inductive InterviewStatus
  | scheduled
  | completed
  | no_show
  | cancelled
  deriving DecidableEq, Repr

/-- A JSON-ish Python value as found in `answers` dicts. -/
inductive PyValue
  | str (s : String)
  | num (n : Int)
  | listV (xs : List String)
  | boolV (b : Bool)
  | noneV
  deriving DecidableEq, Repr

/-- Python truthiness, used by the `not data.answers[qid]` test in
`submit_questionnaire`. -/
def PyValue.truthy : PyValue → Bool
  | .str s => s ≠ ""
  | .num n => n ≠ 0
  | .listV xs => xs ≠ []
  | .boolV b => b
  | .noneV => false

/-- An answers dict `{question_id: value}` (insertion-ordered). -/
abbrev Answers : Type := List (String × PyValue)

/-- Dict lookup `answers[qid]` / the `qid in answers` membership test. -/
def lookupAnswer (answers : Answers) (qid : String) : Option PyValue :=
  (List.find? (fun kv => kv.1 = qid) answers).map (fun kv => kv.2)

/-- One option of a choice question (`QuestionOption` in
`src/app/api/schemas/questionnaire.py`): a machine value plus a label. -/
structure QuestionOption where
  value : String
  label : String
  deriving DecidableEq, Repr

/-- One entry of `StageTemplate.questions` (a JSON array in
`src/db/models.py`).  Keys other than `id` and `text` may be absent from
the JSON object, hence the `Option` fields; `submit_questionnaire` reads
`required` through `q.get("required", True)`. -/
structure Question where
  id : String
  text : String
  qtype : Option String
  required : Option Bool
  options : Option (List QuestionOption)
  deriving DecidableEq, Repr

/-- `q.get("required", True)`. -/
def Question.requiredD (q : Question) : Bool := q.required.getD true

/-- `StageTemplate` row (`src/db/models.py`). -/
structure StageTemplate where
  id : Nat
  faculty_id : Nat
  stage_type : StageType
  version : Nat
  questions : List Question
  is_active : Bool
  deriving DecidableEq, Repr

/-- `Faculty` row (`src/db/models.py`): the stage pair plus the
video-intake flag.  `current_stage` is nullable (`None` = not started). -/
structure Faculty where
  id : Nat
  name : String
  current_stage : Option StageType
  stage_status : StageStatus
  video_chat_id : Option Int
  video_submission_open : Bool
  deriving DecidableEq, Repr

/-- `Questionnaire` row (`src/db/models.py`): the immutable final
submission.  The surrogate primary key is omitted. -/
structure QuestionnaireRow where
  user_id : Nat
  faculty_id : Nat
  template_id : Nat
  answers : Answers
  deriving DecidableEq, Repr

/-- `ApprovalQueue` row (`src/db/models.py`), restricted to the fields
`submit_questionnaire` writes. -/
structure ApprovalRow where
  user_id : Nat
  faculty_id : Nat
  stage_type : StageType
  answers : Answers
  status : ApprovalStatus
  deriving DecidableEq, Repr

/-- `UserProgress` row (`src/db/models.py`), with all of its mapped
columns (datetimes as epoch seconds). -/
structure UserProgress where
  id : Nat
  user_id : Nat
  faculty_id : Nat
  stage_type : StageType
  status : SubmissionStatus
  submitted_at : Option Nat
  approved_at : Option Nat
  rejected_at : Option Nat
  rejection_reason : Option String
  deriving DecidableEq, Repr

/-- The durable rows touched by the questionnaire submit transaction. -/
structure DbState where
  questionnaires : List QuestionnaireRow
  approval_queue : List ApprovalRow
  user_progress : List UserProgress
  deriving DecidableEq, Repr

/-- Body of `SubmitQuestionnaireRequest`
(`src/app/api/schemas/questionnaire.py`). -/
structure SubmitRequest where
  template_id : Nat
  answers : Answers
  deriving DecidableEq, Repr

/-- The typed refusals `submit_questionnaire` can raise before `commit`. -/
inductive SubmitError
  | stageMismatch
  | stageClosed
  | templateOutdated
  | alreadySubmitted
  | validationError (missing : List String)
  deriving DecidableEq, Repr

/-- The `missing` list of `submit_questionnaire`: ids of questions with
`required` (default true) whose answer is absent or falsy. -/
def missingRequired (template : StageTemplate) (answers : Answers) : List String :=
  (List.map Question.id (List.filter Question.requiredD template.questions)).filter
    (fun qid =>
      match lookupAnswer answers qid with
      | Option.none => true
      | Option.some v => ! v.truthy)

/-- Update the first row matched by `.first()` (SQLAlchemy returns the
first matching row; `submit_questionnaire` mutates only that one). -/
def updateFirst (pred : UserProgress → Bool) (f : UserProgress → UserProgress) :
    List UserProgress → List UserProgress
  | [] => []
  | p :: rest => if pred p then f p :: rest else p :: updateFirst pred f rest

/-- Row match used by the progress upsert in `submit_questionnaire`. -/
def progressMatches (user_id faculty_id : Nat) (st : StageType) (p : UserProgress) : Bool :=
  p.user_id = user_id && p.faculty_id = faculty_id && p.stage_type = st

/-- The `UserProgress` upsert of `submit_questionnaire`: update the first
matching row to `SUBMITTED`, else insert a fresh row. -/
def upsertProgress (ps : List UserProgress) (user_id faculty_id : Nat) (now : Nat) :
    List UserProgress :=
  if ps.any (progressMatches user_id faculty_id .questionnaire) then
    updateFirst (progressMatches user_id faculty_id .questionnaire)
      (fun p => { p with status := .submitted, submitted_at := some now }) ps
  else
    ps ++ [{ id := 0, user_id := user_id, faculty_id := faculty_id,
             stage_type := .questionnaire, status := .submitted,
             submitted_at := some now, approved_at := Option.none,
             rejected_at := Option.none, rejection_reason := Option.none }]

/-- The durable transaction of `submit_questionnaire`
(`src/app/api/routers/questionnaire.py`, lines 288–374): gate checks,
template check, duplicate check, required-field validation, then the
three inserts/upserts committed together.  An `error` is an
`HTTPException` raised before `commit`, so nothing persists. -/
def submit_questionnaire (faculty : Faculty) (template : StageTemplate)
    (user_id : Nat) (data : SubmitRequest) (db : DbState) (now : Nat) :
    Except SubmitError DbState :=
  if faculty.current_stage ≠ some .questionnaire then
    .error .stageMismatch
  else if faculty.stage_status ≠ .open_ then
    .error .stageClosed
  else if data.template_id ≠ template.id then
    .error .templateOutdated
  else if db.questionnaires.any
      (fun q => q.user_id = user_id && q.faculty_id = faculty.id) then
    .error .alreadySubmitted
  else
    let missing := missingRequired template data.answers
    if missing ≠ [] then
      .error (.validationError missing)
    else
      .ok { questionnaires := db.questionnaires ++
              [{ user_id := user_id, faculty_id := faculty.id,
                 template_id := template.id, answers := data.answers }],
            approval_queue := db.approval_queue ++
              [{ user_id := user_id, faculty_id := faculty.id,
                 stage_type := .questionnaire, answers := data.answers,
                 status := .pending }],
            user_progress := upsertProgress db.user_progress user_id faculty.id now }

/-- Commit-or-rollback view of a transaction result: on success the new
state is published, on an `HTTPException` the session never commits and
the durable state stays as it was. -/
def runTxn {e a : Type} (orig : a) (r : Except e a) : a :=
  match r with
  | .ok s => s
  | .error _ => orig

/-- The `can_submit` flag computed by `get_questionnaire_status`
(`src/app/api/routers/questionnaire.py`, lines 429–434) from the faculty
and the applicant's progress status string. -/
def can_submit_status (faculty : Faculty) (user_status : String) : Bool :=
  faculty.current_stage = some StageType.questionnaire &&
  faculty.stage_status = StageStatus.open_ &&
  ! (user_status ∈ ["submitted", "approved"])

/-! ## Draft buffer (`src/app/services/draft_service.py`)

Drafts live in Redis under `draft:questionnaire:{telegram_id}:{faculty_id}`
with `SET ... EX ttl`.  A key carries an absolute expiry instant; `GET`
on a key whose expiry has been reached behaves as if the key were absent. -/

/-- The payload `save_draft` serializes to JSON (`updated_at` as epoch
seconds); `get_draft` parses it back. -/
structure DraftData where
  template_id : Nat
  answers : Answers
  updated_at : Nat
  deriving DecidableEq, Repr

/-- The Redis keyspace restricted to draft entries:
`(key, value, absolute expiry)` triples, one per key. -/
structure RedisState where
  entries : List (String × DraftData × Nat)
  deriving DecidableEq, Repr

/-- The empty keyspace — no draft was ever saved. -/
def RedisState.empty : RedisState := { entries := [] }

/-- `DraftService._make_key`. -/
def draftKey (telegram_id faculty_id : Nat) : String :=
  "draft:questionnaire:" ++ toString telegram_id ++ ":" ++ toString faculty_id

/-- `SET key value EX ttl`: replaces any previous value and its TTL. -/
def redisSetEx (r : RedisState) (key : String) (v : DraftData) (expireAt : Nat) :
    RedisState :=
  { entries := (r.entries.filter (fun kv => kv.1 ≠ key)) ++ [(key, v, expireAt)] }

/-- `GET key` at instant `now`: a key at or past its expiry is gone. -/
def redisGet (r : RedisState) (key : String) (now : Nat) : Option DraftData :=
  match List.find? (fun kv => kv.1 = key) r.entries with
  | Option.some (_, v, expireAt) => if now < expireAt then some v else Option.none
  | Option.none => Option.none

/-- `DEL key`. -/
def redisDelete (r : RedisState) (key : String) : RedisState :=
  { entries := r.entries.filter (fun kv => kv.1 ≠ key) }

/-- `settings.redis_draft_ttl` (`src/config.py`): seven days, in seconds. -/
def redis_draft_ttl : Nat := 60 * 60 * 24 * 7

/-- `DraftService.save_draft`: upsert the draft under the service TTL
(`self.ttl`, carried here as the `ttl` argument) counted from `now`. -/
def save_draft (r : RedisState) (telegram_id faculty_id template_id : Nat)
    (answers : Answers) (now ttl : Nat) : RedisState :=
  redisSetEx r (draftKey telegram_id faculty_id)
    { template_id := template_id, answers := answers, updated_at := now }
    (now + ttl)

/-- `DraftService.get_draft` at instant `now`. -/
def get_draft (r : RedisState) (telegram_id faculty_id : Nat) (now : Nat) :
    Option DraftData :=
  redisGet r (draftKey telegram_id faculty_id) now

/-- `DraftService.delete_draft` (ignoring the deleted-count result). -/
def delete_draft (r : RedisState) (telegram_id faculty_id : Nat) : RedisState :=
  redisDelete r (draftKey telegram_id faculty_id)

/-! ## The whole submit handler: durable transaction + best-effort discard -/

/-- Durable store plus the volatile draft buffer. -/
structure SystemState where
  db : DbState
  redis : RedisState
  deriving DecidableEq, Repr

/-- Handler-level result: a typed business refusal, or an infrastructure
failure after `commit` (the best-effort draft discard raised). -/
inductive HandlerError
  | business (e : SubmitError)
  | infra
  deriving DecidableEq, Repr

/-- The full `submit_questionnaire` endpoint: run the durable transaction;
on success `commit` has happened, then try to discard the draft.
`discard_fails` models the Redis `DELETE` raising — the handler then
surfaces an error, but the three committed writes stay. -/
def submit_handler (faculty : Faculty) (template : StageTemplate)
    (telegram_id user_id : Nat) (data : SubmitRequest) (st : SystemState)
    (now : Nat) (discard_fails : Bool) :
    Except HandlerError Unit × SystemState :=
  match submit_questionnaire faculty template user_id data st.db now with
  | .error e => (.error (.business e), st)
  | .ok db2 =>
      if discard_fails then
        (.error .infra, { db := db2, redis := st.redis })
      else
        (.ok (), { db := db2, redis := delete_draft st.redis telegram_id faculty.id })

/-! ## Interview days / time slots (`src/app/api/routers/interview_days.py`) -/

/-- `InterviewDay` row (`src/db/models.py`), dates as day numbers. -/
structure InterviewDay where
  id : Nat
  faculty_id : Nat
  date : Nat
  is_active : Bool
  deriving DecidableEq, Repr

/-- `TimeSlot` row (`src/db/models.py`): an hourly bucket of an
interview day with an admin-set seat count and a stored occupancy
counter. -/
structure TimeSlot where
  id : Nat
  day_id : Nat
  time : Nat
  max_participants : Nat
  current_participants : Nat
  is_active : Bool
  deriving DecidableEq, Repr

/-- `InterviewSlot` row (`src/db/models.py`): an ad-hoc time-range slot;
timestamps as epoch seconds. -/
structure InterviewSlot where
  id : Nat
  faculty_id : Nat
  datetime_start : Nat
  datetime_end : Nat
  max_participants : Nat
  location : Option String
  is_active : Bool
  deriving DecidableEq, Repr

/-- `Interview` row (`src/db/models.py`): a booking, possibly against an
ad-hoc slot (`slot_id`) or an hourly time slot (`time_slot_id`). -/
structure Interview where
  id : Nat
  user_id : Nat
  faculty_id : Nat
  slot_id : Option Nat
  time_slot_id : Option Nat
  status : InterviewStatus
  deriving DecidableEq, Repr

/-- The occupancy count used throughout `interview_slots.py`:
`count(Interview) where slot_id = ... and status != "cancelled"`. -/
def slotCurrentParticipants (interviews : List Interview) (slot_id : Nat) : Nat :=
  (interviews.filter
    (fun i => i.slot_id = some slot_id && i.status ≠ InterviewStatus.cancelled)).length

/-- The count used by `delete_interview_day`
(`src/app/api/routers/interview_days.py`, lines 335–343):
`count(Interview) where time_slot_id in (slots of the day)` —
note the absence of any status filter. -/
def dayBookingsCount (interviews : List Interview) (timeSlots : List TimeSlot)
    (day_id : Nat) : Nat :=
  (interviews.filter
    (fun i =>
      match i.time_slot_id with
      | some tsid =>
          (timeSlots.filter (fun ts => ts.day_id = day_id)).any (fun ts => ts.id = tsid)
      | Option.none => false)).length

/-- Typed refusals of the capacity/deletion handlers. -/
inductive CapacityError
  | belowCurrentOccupancy
  | invalidTimeRange
  | hasBookings
  deriving DecidableEq, Repr

/-- `update_time_slot` (`src/app/api/routers/interview_days.py`, lines
357–389): set the seat count of a time slot, refusing when it would
fall below the stored occupancy counter. -/
def update_time_slot (ts : TimeSlot) (newMax : Nat) : Except CapacityError TimeSlot :=
  if newMax < ts.current_participants then
    .error .belowCurrentOccupancy
  else
    .ok { ts with max_participants := newMax }

/-- Body of `InterviewSlotUpdate` (`src/app/api/schemas/interview_slots.py`):
every field optional. -/
structure InterviewSlotUpdate where
  datetime_start : Option Nat
  datetime_end : Option Nat
  max_participants : Option Nat
  location : Option String
  is_active : Option Bool
  deriving DecidableEq, Repr

/-- Tail of `update_interview_slot`: location / activity assignment and
the final time-range check. -/
def finishSlotUpdate (s : InterviewSlot) (data : InterviewSlotUpdate) :
    Except CapacityError InterviewSlot :=
  let s3 : InterviewSlot :=
    match data.location with
    | some v => { s with location := some v }
    | Option.none => s
  let s4 : InterviewSlot :=
    match data.is_active with
    | some v => { s3 with is_active := v }
    | Option.none => s3
  if s4.datetime_start ≥ s4.datetime_end then
    .error .invalidTimeRange
  else
    .ok s4

/-- `update_interview_slot` (`src/app/api/routers/interview_slots.py`,
lines 278–333): apply the provided fields in source order — times first,
then the seat count guarded against the live occupancy count, then
location and activity — and finally validate the time range.  An error
raises before `commit`, so the stored row is untouched. -/
def update_interview_slot (slot : InterviewSlot) (interviews : List Interview)
    (data : InterviewSlotUpdate) : Except CapacityError InterviewSlot :=
  let current_participants := slotCurrentParticipants interviews slot.id
  let s1 :=
    match data.datetime_start with
    | some v => { slot with datetime_start := v }
    | Option.none => slot
  let s2 :=
    match data.datetime_end with
    | some v => { s1 with datetime_end := v }
    | Option.none => s1
  match data.max_participants with
  | some m =>
      if m < current_participants then
        .error .belowCurrentOccupancy
      else
        finishSlotUpdate { s2 with max_participants := m } data
  | Option.none => finishSlotUpdate s2 data

/-- `delete_interview_slot` (`src/app/api/routers/interview_slots.py`,
lines 336–373): refuse while any non-cancelled booking references the
slot, otherwise remove the row. -/
def delete_interview_slot (interviews : List Interview)
    (slots : List InterviewSlot) (slot_id : Nat) :
    Except CapacityError (List InterviewSlot) :=
  if 0 < slotCurrentParticipants interviews slot_id then
    .error .hasBookings
  else
    .ok (slots.filter (fun s => s.id ≠ slot_id))

/-- `delete_interview_day` (`src/app/api/routers/interview_days.py`,
lines 317–352): refuse while any booking — in any status — references
one of the day's time slots, otherwise remove the day. -/
def delete_interview_day (interviews : List Interview)
    (timeSlots : List TimeSlot) (days : List InterviewDay) (day_id : Nat) :
    Except CapacityError (List InterviewDay) :=
  if 0 < dayBookingsCount interviews timeSlots day_id then
    .error .hasBookings
  else
    .ok (days.filter (fun d => d.id ≠ day_id))

/-! ## Reviewer availability (`src/app/api/routers/interview_slots.py`) -/

/-- `SlotAvailability` row (`src/db/models.py`): unique per
`(slot_id, interviewer_id)`. -/
structure SlotAvailability where
  slot_id : Nat
  interviewer_id : Nat
  available : Bool
  updated_at : Nat
  deriving DecidableEq, Repr

/-- Typed refusals of the availability handlers. -/
inductive AvailError
  | pastSlot
  | notFound
  deriving DecidableEq, Repr

/-- Pair match for an availability row. -/
def availMatches (slot_id interviewer_id : Nat) (a : SlotAvailability) : Bool :=
  a.slot_id = slot_id && a.interviewer_id = interviewer_id

/-- Update the first availability row matched by `.first()`. -/
def updateFirstAvail (pred : SlotAvailability → Bool)
    (f : SlotAvailability → SlotAvailability) :
    List SlotAvailability → List SlotAvailability
  | [] => []
  | a :: rest => if pred a then f a :: rest else a :: updateFirstAvail pred f rest

/-- `set_availability` (`src/app/api/routers/interview_slots.py`, lines
425–484): refuse on a slot whose start has passed, then upsert the
`(slot, reviewer)` mark. -/
def set_availability (avs : List SlotAvailability) (slot : InterviewSlot)
    (interviewer_id : Nat) (available : Bool) (now : Nat) :
    Except AvailError (List SlotAvailability) :=
  if slot.datetime_start < now then
    .error .pastSlot
  else if avs.any (availMatches slot.id interviewer_id) then
    .ok (updateFirstAvail (availMatches slot.id interviewer_id)
      (fun a => { a with available := available, updated_at := now }) avs)
  else
    .ok (avs ++ [{ slot_id := slot.id, interviewer_id := interviewer_id,
                   available := available, updated_at := now }])

/-- `remove_availability` (`src/app/api/routers/interview_slots.py`,
lines 487–515): delete the `(slot, reviewer)` mark, raising 404 when the
mark does not exist. -/
def remove_availability (avs : List SlotAvailability)
    (slot_id interviewer_id : Nat) : Except AvailError (List SlotAvailability) :=
  if avs.any (availMatches slot_id interviewer_id) then
    .ok (List.eraseP (availMatches slot_id interviewer_id) avs)
  else
    .error .notFound

/-! ## Stage transitions (`src/bot/handlers/admin.py`, `callback_set_stage`) -/

/-- The faculty mutation performed by `callback_set_stage` (lines
249–281): overwrite the `(current_stage, stage_status)` pair, then adjust
the video-intake flag only on the two `HOME_VIDEO` combinations. -/
def setStage (f : Faculty) (new_stage : StageType) (new_status : StageStatus) :
    Faculty :=
  let f2 := { f with current_stage := some new_stage, stage_status := new_status }
  if new_stage = StageType.home_video && new_status = StageStatus.open_ then
    { f2 with video_submission_open := true }
  else if new_stage = StageType.home_video && new_status = StageStatus.closed then
    { f2 with video_submission_open := false }
  else
    f2

/-! ## Video submission (`src/bot/handlers/video_stage.py`) -/

/-- The value of one `UserProgress` attribute, tagged by column type;
the two relationship attributes are opaque markers. -/
inductive AttrValue
  | int (n : Nat)
  | stage (s : StageType)
  | subStatus (s : SubmissionStatus)
  | optInt (o : Option Nat)
  | optStr (o : Option String)
  | relUser
  | relFaculty
  deriving DecidableEq, Repr

/-- Python attribute resolution on a `UserProgress` instance: the names
the class defines (`src/db/models.py`, lines 352–370) resolve to the
corresponding field; any other name raises `AttributeError`, modelled as
`none`. -/
def UserProgress.getattr (p : UserProgress) : String → Option AttrValue
  | "id" => some (.int p.id)
  | "user_id" => some (.int p.user_id)
  | "faculty_id" => some (.int p.faculty_id)
  | "stage_type" => some (.stage p.stage_type)
  | "status" => some (.subStatus p.status)
  | "submitted_at" => some (.optInt p.submitted_at)
  | "approved_at" => some (.optInt p.approved_at)
  | "rejected_at" => some (.optInt p.rejected_at)
  | "rejection_reason" => some (.optStr p.rejection_reason)
  | "user" => some .relUser
  | "faculty" => some .relFaculty
  | _ => Option.none

/-- An uncaught Python exception escaping a handler. -/
inductive PyError
  | attributeError
  deriving DecidableEq, Repr

/-- Visible outcomes of `handle_video_submission`. -/
inductive VideoOutcome
  | notRegistered
  | facultyNotFound
  | stageNotActive
  | intakeClosed
  | alreadySubmittedMsg
  | accepted
  deriving DecidableEq, Repr

/-- A `users` row, restricted to what `handle_video_submission` reads. -/
structure UserRec where
  id : Nat
  telegram_id : Nat
  faculty_id : Nat
  deriving DecidableEq, Repr

/-- `handle_video_submission` (`src/bot/handlers/video_stage.py`, lines
360–418) up to the acceptance of the video: registration and faculty
lookups, the stage gates, then the duplicate-submission check, which
reads `existing_progress.submission_status` — a name `UserProgress` does
not define — before the progress upsert. -/
def handle_video_submission (user : Option UserRec) (faculty : Option Faculty)
    (progress_rows : List UserProgress) : Except PyError VideoOutcome :=
  match user with
  | Option.none => .ok .notRegistered
  | some u =>
    match faculty with
    | Option.none => .ok .facultyNotFound
    | some f =>
      if f.current_stage ≠ some StageType.home_video then
        .ok .stageNotActive
      else if ! f.video_submission_open then
        .ok .intakeClosed
      else
        match List.find?
          (fun p => p.user_id = u.id && p.stage_type = StageType.home_video)
          progress_rows with
        | some existing_progress =>
            match existing_progress.getattr "submission_status" with
            | some v =>
                if v = AttrValue.subStatus SubmissionStatus.submitted then
                  .ok .alreadySubmittedMsg
                else
                  .ok .accepted
            | Option.none => .error .attributeError
        | Option.none => .ok .accepted

/-- The fresh `Questionnaire` row written by a successful submit. -/
def newQuestionnaireRow (faculty : Faculty) (template : StageTemplate)
    (user_id : Nat) (data : SubmitRequest) : QuestionnaireRow :=
  { user_id := user_id, faculty_id := faculty.id,
    template_id := template.id, answers := data.answers }

/-- The fresh `ApprovalQueue` row written by a successful submit. -/
def newApprovalRow (faculty : Faculty) (user_id : Nat) (data : SubmitRequest) :
    ApprovalRow :=
  { user_id := user_id, faculty_id := faculty.id,
    stage_type := .questionnaire, answers := data.answers,
    status := .pending }

/-- The state a successful submit commits. -/
def submitOkState (faculty : Faculty) (template : StageTemplate)
    (user_id : Nat) (data : SubmitRequest) (db : DbState) (now : Nat) : DbState :=
  { questionnaires := db.questionnaires ++
      [newQuestionnaireRow faculty template user_id data],
    approval_queue := db.approval_queue ++ [newApprovalRow faculty user_id data],
    user_progress := upsertProgress db.user_progress user_id faculty.id now }

/-! ## Helper lemmas -/

/-- A filtered list is nonempty exactly when some element passes the
filter, phrased on `0 < length`. -/
theorem length_filter_pos_iff {α : Type} (p : α → Bool) (l : List α) :
    0 < (l.filter p).length ↔ ∃ x ∈ l, p x = true := by
  rw [List.length_pos]
  constructor
  · intro h
    obtain ⟨x, hx⟩ := List.exists_mem_of_ne_nil _ h
    exact ⟨x, List.mem_filter.mp hx |>.1, List.mem_filter.mp hx |>.2⟩
  · rintro ⟨x, hmem, hp⟩ hnil
    exact (List.eq_nil_iff_forall_not_mem.mp hnil x) (List.mem_filter.mpr ⟨hmem, hp⟩)

/-- Inversion: a successful submit forces every gate to have passed and
pins the committed state. -/
theorem submit_ok_shape (faculty : Faculty) (template : StageTemplate)
    (user_id : Nat) (data : SubmitRequest) (db : DbState) (now : Nat)
    (db2 : DbState)
    (h : submit_questionnaire faculty template user_id data db now = .ok db2) :
    faculty.current_stage = some StageType.questionnaire ∧
    faculty.stage_status = StageStatus.open_ ∧
    data.template_id = template.id ∧
    db.questionnaires.any
      (fun q => q.user_id = user_id && q.faculty_id = faculty.id) = false ∧
    missingRequired template data.answers = [] ∧
    db2 = submitOkState faculty template user_id data db now := by
  unfold submit_questionnaire at h
  by_cases h1 : faculty.current_stage ≠ some StageType.questionnaire
  · rw [if_pos h1] at h
    exact Except.noConfusion h
  rw [if_neg h1] at h
  by_cases h2 : faculty.stage_status ≠ StageStatus.open_
  · rw [if_pos h2] at h
    exact Except.noConfusion h
  rw [if_neg h2] at h
  by_cases h3 : data.template_id ≠ template.id
  · rw [if_pos h3] at h
    exact Except.noConfusion h
  rw [if_neg h3] at h
  by_cases h4 : db.questionnaires.any
      (fun q => q.user_id = user_id && q.faculty_id = faculty.id) = true
  · rw [if_pos h4] at h
    exact Except.noConfusion h
  rw [if_neg h4] at h
  by_cases h5 : missingRequired template data.answers ≠ []
  · simp [h5] at h
  · have h5e : missingRequired template data.answers = [] := not_ne_iff.mp h5
    simp only [h5e, ne_eq, not_true_eq_false, if_false, ite_false,
      Except.ok.injEq] at h
    refine ⟨not_not.mp h1, not_not.mp h2, not_not.mp h3,
      Bool.eq_false_iff.mpr h4, h5e, ?_⟩
    rw [← h]
    rfl

/-- A successful submit under explicitly passing gates. -/
theorem submit_ok_of (faculty : Faculty) (template : StageTemplate)
    (user_id : Nat) (data : SubmitRequest) (db : DbState) (now : Nat)
    (hstage : faculty.current_stage = some StageType.questionnaire)
    (hopen : faculty.stage_status = StageStatus.open_)
    (htpl : data.template_id = template.id)
    (hnodup : db.questionnaires.any
      (fun q => q.user_id = user_id && q.faculty_id = faculty.id) = false)
    (hvalid : missingRequired template data.answers = []) :
    submit_questionnaire faculty template user_id data db now =
      .ok (submitOkState faculty template user_id data db now) := by
  simp [submit_questionnaire, hstage, hopen, htpl, hnodup, hvalid,
    submitOkState, newQuestionnaireRow, newApprovalRow]

/-- `updateFirst` rewrites the first matching row in place. -/
theorem updateFirst_mem_of_any (pred : UserProgress → Bool)
    (f : UserProgress → UserProgress) (l : List UserProgress)
    (h : l.any pred = true) :
    ∃ p, p ∈ l ∧ pred p = true ∧ f p ∈ updateFirst pred f l := by
  induction l with
  | nil => simp at h
  | cons hd tl ih =>
    by_cases hp : pred hd
    · exact ⟨hd, List.mem_cons_self hd tl, hp, by simp [updateFirst, hp]⟩
    · have h2 : tl.any pred = true := by
        simpa [hp] using h
      obtain ⟨p, hmem, hpred, hmem2⟩ := ih h2
      exact ⟨p, List.mem_cons_of_mem hd hmem, hpred,
        by simp [updateFirst, hp]; right; exact hmem2⟩

/-- The progress upsert always leaves a `SUBMITTED` row for the triple. -/
theorem upsertProgress_mem (ps : List UserProgress) (user_id faculty_id now : Nat) :
    ∃ p ∈ upsertProgress ps user_id faculty_id now,
      progressMatches user_id faculty_id StageType.questionnaire p = true ∧
      p.status = SubmissionStatus.submitted := by
  unfold upsertProgress
  by_cases hany : ps.any (progressMatches user_id faculty_id .questionnaire) = true
  · rw [if_pos hany]
    obtain ⟨p, _, hpred, hmem2⟩ := updateFirst_mem_of_any
      (progressMatches user_id faculty_id .questionnaire)
      (fun p => { p with status := .submitted, submitted_at := some now }) ps hany
    refine ⟨{ p with status := .submitted, submitted_at := some now }, hmem2, ?_, rfl⟩
    simpa [progressMatches] using hpred
  · rw [if_neg hany]
    refine ⟨_, List.mem_append_right _ (List.mem_singleton.mpr rfl), ?_, rfl⟩
    simp [progressMatches]

/-! ## Claim theorems -/

/-- C1: with the questionnaire stage open, a current template, no prior
submission and valid answers, the first submit succeeds; repeating it
with identical arguments refuses with `AlreadySubmitted`, and the store
holds exactly one `Questionnaire` row for the (applicant, unit) pair. -/
theorem submit_idempotent (faculty : Faculty) (template : StageTemplate)
    (user_id : Nat) (data : SubmitRequest) (db : DbState) (now now2 : Nat)
    (hstage : faculty.current_stage = some StageType.questionnaire)
    (hopen : faculty.stage_status = StageStatus.open_)
    (htpl : data.template_id = template.id)
    (hnodup : db.questionnaires.any
      (fun q => q.user_id = user_id && q.faculty_id = faculty.id) = false)
    (hvalid : missingRequired template data.answers = []) :
    ∃ db2, submit_questionnaire faculty template user_id data db now = .ok db2 ∧
      submit_questionnaire faculty template user_id data db2 now2 =
        .error .alreadySubmitted ∧
      (db2.questionnaires.filter
        (fun q => q.user_id = user_id && q.faculty_id = faculty.id)).length = 1 := by
  refine ⟨submitOkState faculty template user_id data db now,
    submit_ok_of faculty template user_id data db now
      hstage hopen htpl hnodup hvalid, ?_, ?_⟩
  · have hany : (submitOkState faculty template user_id data db now).questionnaires.any
        (fun q => q.user_id = user_id && q.faculty_id = faculty.id) = true := by
      simp [submitOkState, newQuestionnaireRow]
    simp [submit_questionnaire, hstage, hopen, htpl, hany]
  · have hfilter : db.questionnaires.filter
        (fun q => q.user_id = user_id && q.faculty_id = faculty.id) = [] := by
      rw [List.filter_eq_nil_iff]
      intro q hq
      exact (List.any_eq_false.mp hnodup) q hq
    simp [submitOkState, newQuestionnaireRow, hfilter]

/-- Witness for C1: a concrete double submit on an empty store. -/
theorem submit_idempotent_witness :
    ∃ db2, submit_questionnaire
        { id := 1, name := "F", current_stage := some StageType.questionnaire,
          stage_status := StageStatus.open_, video_chat_id := Option.none,
          video_submission_open := false }
        { id := 3, faculty_id := 1, stage_type := StageType.questionnaire,
          version := 1, is_active := true,
          questions := [{ id := "q1", text := "Why", qtype := some "text",
                          required := some true, options := Option.none }] }
        5 { template_id := 3, answers := [("q1", PyValue.str "x")] }
        { questionnaires := [], approval_queue := [], user_progress := [] } 0 =
        .ok db2 ∧
      submit_questionnaire
        { id := 1, name := "F", current_stage := some StageType.questionnaire,
          stage_status := StageStatus.open_, video_chat_id := Option.none,
          video_submission_open := false }
        { id := 3, faculty_id := 1, stage_type := StageType.questionnaire,
          version := 1, is_active := true,
          questions := [{ id := "q1", text := "Why", qtype := some "text",
                          required := some true, options := Option.none }] }
        5 { template_id := 3, answers := [("q1", PyValue.str "x")] } db2 1 =
        .error .alreadySubmitted ∧
      (db2.questionnaires.filter
        (fun q => q.user_id = 5 && q.faculty_id = 1)).length = 1 :=
  submit_idempotent
    { id := 1, name := "F", current_stage := some StageType.questionnaire,
      stage_status := StageStatus.open_, video_chat_id := Option.none,
      video_submission_open := false }
    { id := 3, faculty_id := 1, stage_type := StageType.questionnaire,
      version := 1, is_active := true,
      questions := [{ id := "q1", text := "Why", qtype := some "text",
                      required := some true, options := Option.none }] }
    5 { template_id := 3, answers := [("q1", PyValue.str "x")] }
    { questionnaires := [], approval_queue := [], user_progress := [] } 0 1
    rfl rfl rfl rfl (by rfl)

/-- C2: the `Questionnaire` insert, the `PENDING` `ApprovalQueue` insert
and the `UserProgress` upsert to `SUBMITTED` commit together — on any
refusal nothing durable (nor the draft) changes, and on success all
three rows are present — while the post-commit draft discard is
best-effort: whether or not it fails, the durable state stays exactly
the committed one. -/
theorem submit_atomicity (faculty : Faculty) (template : StageTemplate)
    (telegram_id user_id : Nat) (data : SubmitRequest) (st : SystemState)
    (now : Nat) :
    (∀ e, submit_questionnaire faculty template user_id data st.db now = .error e →
       ∀ b, (submit_handler faculty template telegram_id user_id data st now b).2
         = st) ∧
    (∀ db2, submit_questionnaire faculty template user_id data st.db now = .ok db2 →
       newQuestionnaireRow faculty template user_id data ∈ db2.questionnaires ∧
       newApprovalRow faculty user_id data ∈ db2.approval_queue ∧
       (∃ p ∈ db2.user_progress,
          progressMatches user_id faculty.id StageType.questionnaire p = true ∧
          p.status = SubmissionStatus.submitted) ∧
       ∀ b, (submit_handler faculty template telegram_id user_id data st now b).2.db
         = db2) := by
  constructor
  · intro e he b
    simp [submit_handler, he]
  · intro db2 h
    obtain ⟨_, _, _, _, _, hdb2⟩ :=
      submit_ok_shape faculty template user_id data st.db now db2 h
    subst hdb2
    refine ⟨?_, ?_, ?_, ?_⟩
    · simp [submitOkState]
    · simp [submitOkState]
    · exact upsertProgress_mem st.db.user_progress user_id faculty.id now
    · intro b
      cases b <;> simp [submit_handler, h]

/-- Witness for C2: at a concrete successful submit, the durable state
is the committed one even when the draft discard fails. -/
theorem submit_atomicity_witness :
    (submit_handler
      { id := 1, name := "F", current_stage := some StageType.questionnaire,
        stage_status := StageStatus.open_, video_chat_id := Option.none,
        video_submission_open := false }
      { id := 3, faculty_id := 1, stage_type := StageType.questionnaire,
        version := 1, is_active := true,
        questions := [{ id := "q1", text := "Why", qtype := some "text",
                        required := some true, options := Option.none }] }
      77 5 { template_id := 3, answers := [("q1", PyValue.str "x")] }
      { db := { questionnaires := [], approval_queue := [], user_progress := [] },
        redis := RedisState.empty } 0 true).2.db =
    submitOkState
      { id := 1, name := "F", current_stage := some StageType.questionnaire,
        stage_status := StageStatus.open_, video_chat_id := Option.none,
        video_submission_open := false }
      { id := 3, faculty_id := 1, stage_type := StageType.questionnaire,
        version := 1, is_active := true,
        questions := [{ id := "q1", text := "Why", qtype := some "text",
                        required := some true, options := Option.none }] }
      5 { template_id := 3, answers := [("q1", PyValue.str "x")] }
      { questionnaires := [], approval_queue := [], user_progress := [] } 0 := by
  have h := submit_atomicity
    { id := 1, name := "F", current_stage := some StageType.questionnaire,
      stage_status := StageStatus.open_, video_chat_id := Option.none,
      video_submission_open := false }
    { id := 3, faculty_id := 1, stage_type := StageType.questionnaire,
      version := 1, is_active := true,
      questions := [{ id := "q1", text := "Why", qtype := some "text",
                      required := some true, options := Option.none }] }
    77 5 { template_id := 3, answers := [("q1", PyValue.str "x")] }
    { db := { questionnaires := [], approval_queue := [], user_progress := [] },
      redis := RedisState.empty } 0
  exact (h.2 _ (by rfl)).2.2.2 true

/-- Counterexample to C3 as stated: a template whose single required
`choice` question declares the option values `5` and `10`, answered with
the string `zzz` — a non-empty value outside the declared option set —
is accepted by submit (no validation error), because the handler checks
only presence and truthiness of required answers, never types or option
membership. -/
theorem submit_validation_counterexample :
    (List.map QuestionOption.value
      [{ value := "5", label := "up to 5" },
       { value := "10", label := "5 to 10" }]).contains "zzz" = false ∧
    submit_questionnaire
      { id := 1, name := "F", current_stage := some StageType.questionnaire,
        stage_status := StageStatus.open_, video_chat_id := Option.none,
        video_submission_open := false }
      { id := 3, faculty_id := 1, stage_type := StageType.questionnaire,
        version := 1, is_active := true,
        questions := [{ id := "time", text := "Hours per week",
                        qtype := some "choice", required := some true,
                        options := some [{ value := "5", label := "up to 5" },
                                         { value := "10", label := "5 to 10" }] }] }
      5 { template_id := 3, answers := [("time", PyValue.str "zzz")] }
      { questionnaires := [], approval_queue := [], user_progress := [] } 0 =
      .ok (submitOkState
        { id := 1, name := "F", current_stage := some StageType.questionnaire,
          stage_status := StageStatus.open_, video_chat_id := Option.none,
          video_submission_open := false }
        { id := 3, faculty_id := 1, stage_type := StageType.questionnaire,
          version := 1, is_active := true,
          questions := [{ id := "time", text := "Hours per week",
                          qtype := some "choice", required := some true,
                          options := some [{ value := "5", label := "up to 5" },
                                           { value := "10", label := "5 to 10" }] }] }
        5 { template_id := 3, answers := [("time", PyValue.str "zzz")] }
        { questionnaires := [], approval_queue := [], user_progress := [] } 0) := by
  exact ⟨rfl, by rfl⟩

/-- C3 (amended): submit validates answers only for required-field
presence — every question whose `required` flag (default true) is set
must have a present, truthy value; declared types and option sets are
not checked.  When the check fails, submit returns a validation error
carrying the list of missing/empty question ids and writes nothing
durable; when it passes, the submission goes through. -/
theorem submit_validation_required_only (faculty : Faculty)
    (template : StageTemplate) (telegram_id user_id : Nat)
    (data : SubmitRequest) (st : SystemState) (now : Nat)
    (hstage : faculty.current_stage = some StageType.questionnaire)
    (hopen : faculty.stage_status = StageStatus.open_)
    (htpl : data.template_id = template.id)
    (hnodup : st.db.questionnaires.any
      (fun q => q.user_id = user_id && q.faculty_id = faculty.id) = false) :
    (missingRequired template data.answers ≠ [] →
       submit_questionnaire faculty template user_id data st.db now =
         .error (.validationError (missingRequired template data.answers)) ∧
       ∀ b, (submit_handler faculty template telegram_id user_id data st now b).2
         = st) ∧
    (missingRequired template data.answers = [] →
       submit_questionnaire faculty template user_id data st.db now =
         .ok (submitOkState faculty template user_id data st.db now)) := by
  constructor
  · intro hmiss
    have herr : submit_questionnaire faculty template user_id data st.db now =
        .error (.validationError (missingRequired template data.answers)) := by
      simp [submit_questionnaire, hstage, hopen, htpl, hnodup, hmiss]
    exact ⟨herr, fun b => by simp [submit_handler, herr]⟩
  · intro hvalid
    exact submit_ok_of faculty template user_id data st.db now
      hstage hopen htpl hnodup hvalid

/-- Witness for C3 (amended): one required question left unanswered
produces the validation refusal and leaves the state untouched. -/
theorem submit_validation_required_only_witness :
    submit_questionnaire
      { id := 1, name := "F", current_stage := some StageType.questionnaire,
        stage_status := StageStatus.open_, video_chat_id := Option.none,
        video_submission_open := false }
      { id := 3, faculty_id := 1, stage_type := StageType.questionnaire,
        version := 1, is_active := true,
        questions := [{ id := "q1", text := "Why", qtype := some "text",
                        required := some true, options := Option.none }] }
      5 { template_id := 3, answers := [] }
      { questionnaires := [], approval_queue := [], user_progress := [] } 0 =
      .error (.validationError ["q1"]) := by
  have h := submit_validation_required_only
    { id := 1, name := "F", current_stage := some StageType.questionnaire,
      stage_status := StageStatus.open_, video_chat_id := Option.none,
      video_submission_open := false }
    { id := 3, faculty_id := 1, stage_type := StageType.questionnaire,
      version := 1, is_active := true,
      questions := [{ id := "q1", text := "Why", qtype := some "text",
                      required := some true, options := Option.none }] }
    77 5 { template_id := 3, answers := [] }
    { db := { questionnaires := [], approval_queue := [], user_progress := [] },
      redis := RedisState.empty } 0
    rfl rfl rfl rfl
  exact (h.1 (by decide)).1

/-- Counterexample to C4 as stated: an applicant whose progress is
`SUBMITTED` (and whose questionnaire row exists), on a unit whose stage
was later moved to `HOME_VIDEO`, receives the `StageMismatch` refusal
from submit — not `AlreadySubmitted` — because the stage check runs
first. -/
theorem gate_monotonicity_counterexample :
    ({ questionnaires := [{ user_id := 5, faculty_id := 1, template_id := 3,
                            answers := [("q1", PyValue.str "x")] }],
       approval_queue := [], user_progress :=
         [{ id := 1, user_id := 5, faculty_id := 1,
            stage_type := StageType.questionnaire,
            status := SubmissionStatus.submitted, submitted_at := some 10,
            approved_at := Option.none, rejected_at := Option.none,
            rejection_reason := Option.none }] } : DbState).user_progress.all
      (fun p => p.status = SubmissionStatus.submitted) = true ∧
    submit_questionnaire
      { id := 1, name := "F", current_stage := some StageType.home_video,
        stage_status := StageStatus.open_, video_chat_id := Option.none,
        video_submission_open := true }
      { id := 3, faculty_id := 1, stage_type := StageType.questionnaire,
        version := 1, is_active := true,
        questions := [{ id := "q1", text := "Why", qtype := some "text",
                        required := some true, options := Option.none }] }
      5 { template_id := 3, answers := [("q1", PyValue.str "x")] }
      { questionnaires := [{ user_id := 5, faculty_id := 1, template_id := 3,
                             answers := [("q1", PyValue.str "x")] }],
        approval_queue := [], user_progress :=
          [{ id := 1, user_id := 5, faculty_id := 1,
             stage_type := StageType.questionnaire,
             status := SubmissionStatus.submitted, submitted_at := some 10,
             approved_at := Option.none, rejected_at := Option.none,
             rejection_reason := Option.none }] } 20 =
      .error .stageMismatch ∧
    SubmitError.stageMismatch ≠ SubmitError.alreadySubmitted := by
  exact ⟨rfl, by rfl, by decide⟩

/-- C4 (amended): once the applicant has submitted, the write gate never
allows another submission for the pair — the status endpoint's
`can_submit` is false for a `SUBMITTED` or `APPROVED` progress status
whatever the unit's stage pair is, and `submit_questionnaire` can never
return success; the refusal is `AlreadySubmitted` exactly when the unit
is still `(QUESTIONNAIRE, OPEN)` and the client's template is current,
while a changed stage/status yields `StageMismatch`/`StageClosed`
first. -/
theorem gate_monotonic_refusals (faculty : Faculty) (template : StageTemplate)
    (user_id : Nat) (data : SubmitRequest) (db : DbState) (now : Nat)
    (status : SubmissionStatus)
    (hsub : db.questionnaires.any
      (fun q => q.user_id = user_id && q.faculty_id = faculty.id) = true)
    (hst : status = SubmissionStatus.submitted ∨
           status = SubmissionStatus.approved) :
    (∀ db2, submit_questionnaire faculty template user_id data db now ≠ .ok db2) ∧
    (faculty.current_stage = some StageType.questionnaire →
     faculty.stage_status = StageStatus.open_ →
     data.template_id = template.id →
       submit_questionnaire faculty template user_id data db now =
         .error .alreadySubmitted) ∧
    can_submit_status faculty status.value = false := by
  refine ⟨?_, ?_, ?_⟩
  · intro db2 h
    obtain ⟨_, _, _, hfalse, _, _⟩ :=
      submit_ok_shape faculty template user_id data db now db2 h
    rw [hsub] at hfalse
    exact Bool.true_eq_false.mp hfalse
  · intro hstage hopen htpl
    simp [submit_questionnaire, hstage, hopen, htpl, hsub]
  · rcases hst with h | h <;> subst h <;>
      simp [can_submit_status, SubmissionStatus.value]

/-- Witness for C4 (amended): with the stage still open the second
attempt is refused as `AlreadySubmitted`, and `can_submit` is false. -/
theorem gate_monotonic_refusals_witness :
    submit_questionnaire
      { id := 1, name := "F", current_stage := some StageType.questionnaire,
        stage_status := StageStatus.open_, video_chat_id := Option.none,
        video_submission_open := false }
      { id := 3, faculty_id := 1, stage_type := StageType.questionnaire,
        version := 1, is_active := true,
        questions := [{ id := "q1", text := "Why", qtype := some "text",
                        required := some true, options := Option.none }] }
      5 { template_id := 3, answers := [("q1", PyValue.str "x")] }
      { questionnaires := [{ user_id := 5, faculty_id := 1, template_id := 3,
                             answers := [("q1", PyValue.str "x")] }],
        approval_queue := [], user_progress := [] } 20 =
      .error .alreadySubmitted ∧
    can_submit_status
      { id := 1, name := "F", current_stage := some StageType.questionnaire,
        stage_status := StageStatus.open_, video_chat_id := Option.none,
        video_submission_open := false }
      SubmissionStatus.submitted.value = false := by
  have h := gate_monotonic_refusals
    { id := 1, name := "F", current_stage := some StageType.questionnaire,
      stage_status := StageStatus.open_, video_chat_id := Option.none,
      video_submission_open := false }
    { id := 3, faculty_id := 1, stage_type := StageType.questionnaire,
      version := 1, is_active := true,
      questions := [{ id := "q1", text := "Why", qtype := some "text",
                      required := some true, options := Option.none }] }
    5 { template_id := 3, answers := [("q1", PyValue.str "x")] }
    { questionnaires := [{ user_id := 5, faculty_id := 1, template_id := 3,
                           answers := [("q1", PyValue.str "x")] }],
      approval_queue := [], user_progress := [] } 20
    SubmissionStatus.submitted (by rfl) (Or.inl rfl)
  exact ⟨h.2.1 rfl rfl rfl, h.2.2⟩

/-- C8: `setStage` unconditionally overwrites the faculty's
`(current_stage, stage_status)` pair; the video-intake flag becomes true
exactly when `(HOME_VIDEO, OPEN)` is set, false exactly when
`(HOME_VIDEO, CLOSED)` is set, and is untouched by every other
combination. -/
theorem setStage_overwrites_and_flags (f : Faculty) (s : StageType) (st : StageStatus) :
    (setStage f s st).current_stage = some s ∧
    (setStage f s st).stage_status = st ∧
    (setStage f s st).video_submission_open =
      (if s = StageType.home_video ∧ st = StageStatus.open_ then true
       else if s = StageType.home_video ∧ st = StageStatus.closed then false
       else f.video_submission_open) := by
  unfold setStage
  rcases s <;> rcases st <;> simp

/-- C5: setting a capacity below the current occupancy refuses with the
below-current-occupancy error and leaves the stored row unchanged, both
for hourly time slots (`update_time_slot`) and for ad-hoc interview
slots updated with a new seat count only (`update_interview_slot`); a
capacity at or above the occupancy updates `max_participants`.  The
hypothesis `hts` is the stored-slot invariant that a slot's start
precedes its end (enforced on creation and on every update). -/
theorem setCapacity_below_occupancy (ts : TimeSlot) (slot : InterviewSlot)
    (interviews : List Interview) (newMax newMax2 : Nat)
    (hts : slot.datetime_start < slot.datetime_end) :
    ((newMax < ts.current_participants →
        update_time_slot ts newMax = .error .belowCurrentOccupancy ∧
        runTxn ts (update_time_slot ts newMax) = ts) ∧
     (ts.current_participants ≤ newMax →
        update_time_slot ts newMax = .ok { ts with max_participants := newMax })) ∧
    (let data : InterviewSlotUpdate :=
       { datetime_start := Option.none, datetime_end := Option.none,
         max_participants := some newMax2, location := Option.none,
         is_active := Option.none }
     (newMax2 < slotCurrentParticipants interviews slot.id →
        update_interview_slot slot interviews data = .error .belowCurrentOccupancy ∧
        runTxn slot (update_interview_slot slot interviews data) = slot) ∧
     (slotCurrentParticipants interviews slot.id ≤ newMax2 →
        update_interview_slot slot interviews data =
          .ok { slot with max_participants := newMax2 })) := by
  refine ⟨⟨?_, ?_⟩, ?_, ?_⟩
  · intro h
    simp [update_time_slot, h, runTxn]
  · intro h
    simp [update_time_slot, Nat.not_lt.mpr h]
  · intro h
    simp [update_interview_slot, h, runTxn]
  · intro h
    simp [update_interview_slot, Nat.not_lt.mpr h, finishSlotUpdate,
      Nat.not_le.mpr hts]

/-- Witness for C5 at a concrete slot with three active bookings. -/
theorem setCapacity_below_occupancy_witness :
    update_time_slot
      { id := 1, day_id := 1, time := 10, max_participants := 5,
        current_participants := 3, is_active := true } 2 =
      .error .belowCurrentOccupancy := by
  have h := setCapacity_below_occupancy
    { id := 1, day_id := 1, time := 10, max_participants := 5,
      current_participants := 3, is_active := true }
    { id := 1, faculty_id := 1, datetime_start := 100, datetime_end := 200,
      max_participants := 5, location := Option.none, is_active := true }
    [] 2 4 (by decide)
  exact (h.1.1 (by decide)).1

/-- C7 (amended): deleting an ad-hoc interview slot refuses with the
has-bookings refusal exactly when some non-cancelled booking references
it — so a slot referenced only by cancelled bookings is deletable — while
deleting an interview day refuses exactly when any booking at all,
cancelled included, references one of the day's time slots. -/
theorem deleteCapacityUnit_hasBookings (interviews : List Interview)
    (slots : List InterviewSlot) (timeSlots : List TimeSlot)
    (days : List InterviewDay) (slot_id day_id : Nat) :
    ((delete_interview_slot interviews slots slot_id = .error .hasBookings) ↔
       ∃ i ∈ interviews, i.slot_id = some slot_id ∧ i.status ≠ InterviewStatus.cancelled) ∧
    ((∀ i ∈ interviews, i.slot_id = some slot_id → i.status = InterviewStatus.cancelled) →
       delete_interview_slot interviews slots slot_id =
         .ok (slots.filter (fun s => s.id ≠ slot_id))) ∧
    ((delete_interview_day interviews timeSlots days day_id = .error .hasBookings) ↔
       ∃ i ∈ interviews, ∃ ts ∈ timeSlots, ts.day_id = day_id ∧
         i.time_slot_id = some ts.id) := by
  refine ⟨?_, ?_, ?_⟩
  · rw [show (∃ i ∈ interviews, i.slot_id = some slot_id ∧
        i.status ≠ InterviewStatus.cancelled) ↔
        (0 < slotCurrentParticipants interviews slot_id) from ?_]
    · unfold delete_interview_slot
      constructor
      · intro h
        by_contra hc
        simp [hc] at h
      · intro h
        simp [h]
    · rw [slotCurrentParticipants, length_filter_pos_iff]
      constructor
      · rintro ⟨i, hmem, h1, h2⟩
        exact ⟨i, hmem, by simp [h1, h2]⟩
      · rintro ⟨i, hmem, h⟩
        simp only [Bool.and_eq_true, decide_eq_true_eq] at h
        exact ⟨i, hmem, h.1, h.2⟩
  · intro hall
    have hz : slotCurrentParticipants interviews slot_id = 0 := by
      rw [slotCurrentParticipants, List.length_eq_zero, List.filter_eq_nil_iff]
      intro i hmem
      simp only [Bool.and_eq_true, decide_eq_true_eq, not_and]
      intro h1
      simp [hall i hmem h1]
    simp [delete_interview_slot, hz]
  · rw [show (∃ i ∈ interviews, ∃ ts ∈ timeSlots, ts.day_id = day_id ∧
        i.time_slot_id = some ts.id) ↔
        (0 < dayBookingsCount interviews timeSlots day_id) from ?_]
    · unfold delete_interview_day
      constructor
      · intro h
        by_contra hc
        simp [hc] at h
      · intro h
        simp [h]
    · rw [dayBookingsCount, length_filter_pos_iff]
      constructor
      · rintro ⟨i, hmem, ts, htsmem, hday, hid⟩
        refine ⟨i, hmem, ?_⟩
        rw [hid]
        simp only [List.any_eq_true, List.mem_filter, decide_eq_true_eq]
        exact ⟨ts, ⟨htsmem, by simp [hday]⟩, rfl⟩
      · rintro ⟨i, hmem, h⟩
        cases hts : i.time_slot_id with
        | none => rw [hts] at h; simp at h
        | some tsid =>
          rw [hts] at h
          simp only [List.any_eq_true, List.mem_filter, decide_eq_true_eq] at h
          obtain ⟨ts, ⟨htsmem, hday⟩, hid⟩ := h
          exact ⟨i, hmem, ts, htsmem, hday, by rw [hts, hid]⟩

/-- Witness for C7: a slot with one active and one cancelled booking
refuses deletion. -/
theorem deleteCapacityUnit_hasBookings_witness :
    delete_interview_slot
      [{ id := 1, user_id := 4, faculty_id := 1, slot_id := some 9,
         time_slot_id := Option.none, status := InterviewStatus.scheduled }]
      [{ id := 9, faculty_id := 1, datetime_start := 100, datetime_end := 200,
         max_participants := 5, location := Option.none, is_active := true }] 9 =
      .error .hasBookings := by
  have h := deleteCapacityUnit_hasBookings
    [{ id := 1, user_id := 4, faculty_id := 1, slot_id := some 9,
       time_slot_id := Option.none, status := InterviewStatus.scheduled }]
    [{ id := 9, faculty_id := 1, datetime_start := 100, datetime_end := 200,
       max_participants := 5, location := Option.none, is_active := true }]
    [] [] 9 0
  refine h.1.mpr
    ⟨{ id := 1, user_id := 4, faculty_id := 1, slot_id := some 9,
       time_slot_id := Option.none, status := InterviewStatus.scheduled },
     by simp, by decide, by decide⟩

/-- `updateFirstAvail` keeps the count of rows matched by a predicate
the rewrite preserves. -/
theorem countP_updateFirstAvail (pred : SlotAvailability → Bool)
    (f : SlotAvailability → SlotAvailability) (l : List SlotAvailability)
    (hf : ∀ a, pred (f a) = pred a) :
    List.countP pred (updateFirstAvail pred f l) = List.countP pred l := by
  induction l with
  | nil => rfl
  | cons hd tl ih =>
    by_cases hp : pred hd = true
    · simp [updateFirstAvail, hp, List.countP_cons, hf]
    · simp [updateFirstAvail, hp, List.countP_cons, ih]

/-- On a keyspace honouring the unique constraint (at most one mark per
pair), marking availability succeeds on a future slot and leaves exactly
one mark for the pair. -/
theorem set_availability_count (avs : List SlotAvailability)
    (slot : InterviewSlot) (interviewer_id : Nat) (b : Bool) (now : Nat)
    (hnp : ¬ slot.datetime_start < now)
    (hle : List.countP (availMatches slot.id interviewer_id) avs ≤ 1) :
    ∃ avs1, set_availability avs slot interviewer_id b now = .ok avs1 ∧
      List.countP (availMatches slot.id interviewer_id) avs1 = 1 := by
  by_cases hany : avs.any (availMatches slot.id interviewer_id) = true
  · refine ⟨updateFirstAvail (availMatches slot.id interviewer_id)
        (fun a => { a with available := b, updated_at := now }) avs, ?_, ?_⟩
    · simp [set_availability, hnp, hany]
    · rw [countP_updateFirstAvail _ _ _ (fun a => by simp [availMatches])]
      have hpos : 0 < List.countP (availMatches slot.id interviewer_id) avs := by
        rw [List.countP_pos_iff]
        simpa using hany
      omega
  · refine ⟨avs ++ [{ slot_id := slot.id,
                      interviewer_id := interviewer_id,
                      available := b,
                      updated_at := now }], ?_, ?_⟩
    · simp [set_availability, hnp, hany]
    · have hz : List.countP (availMatches slot.id interviewer_id) avs = 0 := by
        rw [List.countP_eq_zero]
        intro a ha
        exact fun hpa => hany (List.any_eq_true.mpr ⟨a, ha, hpa⟩)
      rw [List.countP_append, hz]
      simp [availMatches]

/-- Counterexample to C6 as stated: unsetting availability when no mark
exists does not succeed as a no-op — `remove_availability` on an empty
keyspace refuses with a 404 `NotFound`. -/
theorem markAvailability_remove_absent_counterexample :
    remove_availability [] 3 4 = .error .notFound := by rfl

/-- C6 (amended): marking availability twice for the same (reviewer,
slot) pair on a future slot leaves exactly one `SlotAvailability` mark
(given the stored unique-constraint invariant of at most one mark per
pair), but unsetting availability when no mark exists fails with a
`NotFound` refusal rather than succeeding as a no-op. -/
theorem markAvailability_idempotent (avs : List SlotAvailability)
    (slot : InterviewSlot) (interviewer_id : Nat) (b1 b2 : Bool)
    (now now2 : Nat)
    (hnp : ¬ slot.datetime_start < now)
    (hnp2 : ¬ slot.datetime_start < now2)
    (huniq : List.countP (availMatches slot.id interviewer_id) avs ≤ 1) :
    (∃ avs1 avs2,
       set_availability avs slot interviewer_id b1 now = .ok avs1 ∧
       set_availability avs1 slot interviewer_id b2 now2 = .ok avs2 ∧
       List.countP (availMatches slot.id interviewer_id) avs2 = 1) ∧
    (avs.any (availMatches slot.id interviewer_id) = false →
       remove_availability avs slot.id interviewer_id = .error .notFound) := by
  constructor
  · obtain ⟨avs1, hset1, hcount1⟩ :=
      set_availability_count avs slot interviewer_id b1 now hnp huniq
    obtain ⟨avs2, hset2, hcount2⟩ :=
      set_availability_count avs1 slot interviewer_id b2 now2 hnp2
        (le_of_eq hcount1)
    exact ⟨avs1, avs2, hset1, hset2, hcount2⟩
  · intro habs
    simp [remove_availability, habs]

/-- Witness for C6 (amended): two marks on an empty keyspace collapse to
one row, and removing from the empty keyspace is refused. -/
theorem markAvailability_idempotent_witness :
    (∃ avs1 avs2,
       set_availability []
         { id := 3, faculty_id := 1, datetime_start := 100,
           datetime_end := 200, max_participants := 5,
           location := Option.none, is_active := true } 4 true 10 = .ok avs1 ∧
       set_availability avs1
         { id := 3, faculty_id := 1, datetime_start := 100,
           datetime_end := 200, max_participants := 5,
           location := Option.none, is_active := true } 4 true 20 = .ok avs2 ∧
       List.countP (availMatches 3 4) avs2 = 1) ∧
    remove_availability [] 3 4 = .error .notFound := by
  have h := markAvailability_idempotent []
    { id := 3, faculty_id := 1, datetime_start := 100, datetime_end := 200,
      max_participants := 5, location := Option.none, is_active := true }
    4 true true 10 20 (by decide) (by decide) (by decide)
  exact ⟨h.1, h.2 (by decide)⟩

/-- Counterexample to C7 as stated: an interview day whose single time
slot is referenced only by a CANCELLED booking still cannot be deleted —
`delete_interview_day` counts bookings of every status. -/
theorem deleteCapacityUnit_cancelled_day_counterexample :
    delete_interview_day
      [{ id := 1, user_id := 4, faculty_id := 1, slot_id := Option.none,
         time_slot_id := some 10, status := InterviewStatus.cancelled }]
      [{ id := 10, day_id := 7, time := 10, max_participants := 1,
         current_participants := 0, is_active := true }]
      [{ id := 7, faculty_id := 1, date := 100, is_active := true }] 7 =
      .error .hasBookings := by rfl

/-- `SET` followed by `GET` on the same key: the fresh value is visible
strictly before its expiry and gone from the expiry instant on,
irrespective of what the keyspace held before. -/
theorem redisGet_setEx (r : RedisState) (key : String) (v : DraftData)
    (expireAt now : Nat) :
    redisGet (redisSetEx r key v expireAt) key now =
      if now < expireAt then some v else Option.none := by
  unfold redisGet redisSetEx
  have hfind : List.find? (fun kv => kv.1 = key)
      ((r.entries.filter (fun kv => kv.1 ≠ key)) ++ [(key, v, expireAt)]) =
      some (key, v, expireAt) := by
    induction r.entries with
    | nil => simp [List.find?]
    | cons hd tl ih =>
      by_cases h : hd.1 = key
      · simp only [List.filter_cons, h]
        simp
      · simp only [List.filter_cons, h]
        simp [h, List.find?_cons]
  simp only [hfind]

/-- C9: a draft saved at instant `now` under time-to-live `ttl` is
retrievable with its saved contents at any instant strictly before
`now + ttl`, and from `now + ttl` on `get_draft` returns `none`, exactly
as on the empty keyspace where the key was never saved.  The prior
keyspace `r` is arbitrary — in particular it may hold an older draft
for the same key whose expiry has nearly elapsed, so the statement also
says that every save resets the TTL to the full duration counted from
the new save. -/
theorem draft_ttl (r : RedisState) (tid fid template_id : Nat)
    (answers : Answers) (now ttl t : Nat) :
    (t < now + ttl →
      get_draft (save_draft r tid fid template_id answers now ttl) tid fid t =
        some { template_id := template_id, answers := answers, updated_at := now }) ∧
    (now + ttl ≤ t →
      get_draft (save_draft r tid fid template_id answers now ttl) tid fid t =
        Option.none ∧
      get_draft (save_draft r tid fid template_id answers now ttl) tid fid t =
        get_draft RedisState.empty tid fid t) := by
  have h := redisGet_setEx r (draftKey tid fid)
    { template_id := template_id, answers := answers, updated_at := now }
    (now + ttl) t
  constructor
  · intro hlt
    unfold get_draft save_draft
    rw [h, if_pos hlt]
  · intro hge
    have hnone : get_draft (save_draft r tid fid template_id answers now ttl)
        tid fid t = Option.none := by
      unfold get_draft save_draft
      rw [h, if_neg (Nat.not_lt.mpr hge)]
    exact ⟨hnone, by rw [hnone]; rfl⟩

/-- Witness for C9: a draft saved at instant 0 with the configured
seven-day TTL is readable one second later and gone at the TTL. -/
theorem draft_ttl_witness :
    get_draft (save_draft RedisState.empty 42 7 3 [("q1", PyValue.str "x")]
        0 redis_draft_ttl) 42 7 1 =
      some { template_id := 3, answers := [("q1", PyValue.str "x")],
             updated_at := 0 } ∧
    get_draft (save_draft RedisState.empty 42 7 3 [("q1", PyValue.str "x")]
        0 redis_draft_ttl) 42 7 redis_draft_ttl = Option.none := by
  have h := draft_ttl RedisState.empty 42 7 3 [("q1", PyValue.str "x")]
    0 redis_draft_ttl
  exact ⟨(h 1).1 (by norm_num [redis_draft_ttl]),
         ((h redis_draft_ttl).2 (by norm_num)).1⟩

/-- C10: `UserProgress` defines no attribute named `submission_status`
(its status column is `status`), so for every user who already has a
`UserProgress` row for the `HOME_VIDEO` stage, the duplicate-submission
check of `handle_video_submission` raises `AttributeError` instead of
returning the intended already-submitted refusal (or any other reply). -/
theorem video_duplicate_check_attribute_error (u : UserRec) (f : Faculty)
    (rows : List UserProgress) (p : UserProgress)
    (hstage : f.current_stage = some StageType.home_video)
    (hopen : f.video_submission_open = true)
    (hfind : List.find?
      (fun q => q.user_id = u.id && q.stage_type = StageType.home_video) rows =
      some p) :
    UserProgress.getattr p "submission_status" = Option.none ∧
    UserProgress.getattr p "status" = some (.subStatus p.status) ∧
    handle_video_submission (some u) (some f) rows = .error .attributeError := by
  have hga : UserProgress.getattr p "submission_status" = Option.none := rfl
  refine ⟨hga, rfl, ?_⟩
  simp [handle_video_submission, hstage, hopen, hfind, hga]

/-- Witness for C10: a registered user of an open home-video faculty
with an existing progress row hits the `AttributeError`. -/
theorem video_duplicate_check_attribute_error_witness :
    handle_video_submission
      (some { id := 5, telegram_id := 99, faculty_id := 2 })
      (some { id := 2, name := "F", current_stage := some StageType.home_video,
              stage_status := StageStatus.open_, video_chat_id := Option.none,
              video_submission_open := true })
      [{ id := 1, user_id := 5, faculty_id := 2,
         stage_type := StageType.home_video,
         status := SubmissionStatus.submitted, submitted_at := some 10,
         approved_at := Option.none, rejected_at := Option.none,
         rejection_reason := Option.none }] = .error .attributeError := by
  have h := video_duplicate_check_attribute_error
    { id := 5, telegram_id := 99, faculty_id := 2 }
    { id := 2, name := "F", current_stage := some StageType.home_video,
      stage_status := StageStatus.open_, video_chat_id := Option.none,
      video_submission_open := true }
    [{ id := 1, user_id := 5, faculty_id := 2,
       stage_type := StageType.home_video,
       status := SubmissionStatus.submitted, submitted_at := some 10,
       approved_at := Option.none, rejected_at := Option.none,
       rejection_reason := Option.none }]
    { id := 1, user_id := 5, faculty_id := 2,
      stage_type := StageType.home_video,
      status := SubmissionStatus.submitted, submitted_at := some 10,
      approved_at := Option.none, rejected_at := Option.none,
      rejection_reason := Option.none }
    rfl rfl (by rfl)
  exact h.2.2

end Otbor
